import Mathlib

/-!
Verification of the vapoursynth-analog core: a shallow embedding in Lean of the
decoder-selection, sidecar-resolution and output-geometry logic of
`tbcreader.cpp` (`TbcReader::open`, `TbcReader::configureDecoder`), of the
JSON-to-SQLite metadata migration (`jsonconverter_wrapper.cpp`) together with
the SQLite read-back (`sqlite3_metadata_reader.cpp`), and of the output
normalisation (`VSAnalog4fscSource::convertToFloat`, in both revisions present
in the repository).

Conventions of the embedding:
* C `int` values become `Int`; C integer division (truncation toward zero)
  becomes `Int.tdiv`.
* `double` arithmetic is embedded as exact rational arithmetic over `ℚ`;
  the decimal literals of the source are read exactly.
* The filesystem seen by `TbcReader::open` is a predicate `String → Bool`
  (the uses of `QFileInfo::exists`).
* SQLite rows become structures; a NULLable column becomes an `Option`;
  `ORDER BY field_id` becomes `List.insertionSort` on the `field_id` key;
  the transactional (atomic) JSON migration becomes an `Option`-returning
  conversion function, `none` meaning the rolled-back transaction.
-/

namespace VsAnalog

/-- The three video systems of `lddecodemetadata.h` used by this plugin. -/
inductive VideoSystem where
  | NTSC
  | PAL
  | PAL_M
deriving DecidableEq, Repr

/-- `TbcReader::DecoderType` from `tbcreader.h`. -/
inductive DecoderType where
  | Ntsc1D
  | Ntsc2D
  | Ntsc3D
  | Ntsc3DNoAdapt
  | Pal2D
  | Transform2D
  | Transform3D
  | Mono
  | Auto
deriving DecidableEq, Repr

/-- `isNtscColorCarrier` from `TbcReader::configureDecoder`:
`const bool isNtscColorCarrier = (videoParameters.system == NTSC);`. -/
def isNtscColorCarrier (system : VideoSystem) : Bool :=
  system == .NTSC

/-- The auto-selection step of `TbcReader::configureDecoder` (part_003 lines
334-345): when the configured decoder is `Auto`, NTSC selects `Ntsc2D` and
PAL / PAL-M (and the `default` label) select `Pal2D`. -/
def autoSelectDecoder (decoder : DecoderType) (system : VideoSystem) : DecoderType :=
  if decoder == .Auto then
    match system with
    | .NTSC => .Ntsc2D
    | .PAL => .Pal2D
    | .PAL_M => .Pal2D
  else decoder

/-- The validation step of `TbcReader::configureDecoder` (part_003 lines
347-372): an NTSC-family decoder against a non-NTSC colour carrier is replaced
by `Pal2D`; a PAL-family decoder against an NTSC colour carrier is replaced by
`Ntsc2D`; `Mono` and `Auto` pass through. -/
def validateDecoder (decoder : DecoderType) (system : VideoSystem) : DecoderType :=
  match decoder with
  | .Ntsc1D | .Ntsc2D | .Ntsc3D | .Ntsc3DNoAdapt =>
      if !isNtscColorCarrier system then .Pal2D else decoder
  | .Pal2D | .Transform2D | .Transform3D =>
      if isNtscColorCarrier system then .Ntsc2D else decoder
  | .Mono => decoder
  | .Auto => decoder

/-- The decoder resolved by `TbcReader::configureDecoder`: auto-selection
followed by family validation; the result is stored in `activeDecoder`. -/
def configureDecoder (cfgDecoder : DecoderType) (system : VideoSystem) : DecoderType :=
  validateDecoder (autoSelectDecoder cfgDecoder system) system

/-- The NTSC-family (comb filter) engine variants, the cases of the first
validation `switch` label group in `TbcReader::configureDecoder`. -/
def isNtscFamilyDecoder : DecoderType → Bool
  | .Ntsc1D | .Ntsc2D | .Ntsc3D | .Ntsc3DNoAdapt => true
  | _ => false

/-- The PAL-family engine variants, the cases of the second validation
`switch` label group in `TbcReader::configureDecoder`. -/
def isPalFamilyDecoder : DecoderType → Bool
  | .Pal2D | .Transform2D | .Transform3D => true
  | _ => false

/-- Result of the metadata-sidecar resolution performed at the start of
`TbcReader::open`. -/
inductive MetadataResolution where
  | store (dbPath : String)
  | converted (jsonPath dbPath : String)
  | notFound
deriving DecidableEq, Repr

/-- The sidecar resolution of `TbcReader::open` (part_003 lines 249-285).
`baseName` is `absolutePath + "/" + completeBaseName` of the source path and
`tbcPath` is the source path itself; `fsExists` is `QFileInfo::exists`.
The structured store is looked for at `baseName ++ ".db"` then
`tbcPath ++ ".db"`; failing both, JSON is looked for at `baseName ++ ".json"`,
`tbcPath ++ ".json"`, `baseName ++ ".tbc.json"` and converted, the conversion
target being the `dbPath` variable still in scope. -/
def resolveMetadata (fsExists : String → Bool) (baseName tbcPath : String) :
    MetadataResolution :=
  let dbPath0 := baseName ++ ".db"
  let dbPath := if fsExists dbPath0 then dbPath0 else tbcPath ++ ".db"
  if fsExists dbPath then
    .store dbPath
  else
    let jsonPath0 := baseName ++ ".json"
    let jsonPath1 := if fsExists jsonPath0 then jsonPath0 else tbcPath ++ ".json"
    let jsonPath := if fsExists jsonPath1 then jsonPath1 else baseName ++ ".tbc.json"
    if fsExists jsonPath then .converted jsonPath dbPath else .notFound

/-- The output-dimension computation of `TbcReader::open` (part_003 lines
311-323): the output dimension starts at the active dimension and, only when
`config.paddingMultiple > 0`, is rounded up with the C integer expression
`((outputDim + pad - 1) / pad) * pad` (C `/` truncates toward zero). -/
def computeOutputDim (activeDim paddingMultiple : Int) : Int :=
  if 0 < paddingMultiple then
    ((activeDim + paddingMultiple - 1).tdiv paddingMultiple) * paddingMultiple
  else activeDim

/-- `activeWidth = videoParameters.activeVideoEnd - videoParameters.activeVideoStart`. -/
def activeWidthOf (activeVideoStart activeVideoEnd : Int) : Int :=
  activeVideoEnd - activeVideoStart

/-- `activeHeight = videoParameters.lastActiveFrameLine - videoParameters.firstActiveFrameLine`. -/
def activeHeightOf (firstActiveFrameLine lastActiveFrameLine : Int) : Int :=
  lastActiveFrameLine - firstActiveFrameLine

/-- A decode-engine component frame: full-field-geometry planes of real-valued
samples, accessed through the `ComponentFrame::y/u/v` row pointers. -/
structure ComponentFrame where
  y : ℕ → ℕ → ℚ
  u : ℕ → ℕ → ℚ
  v : ℕ → ℕ → ℚ

/-- `kB = sqrt(209556997.0 / 96146491.0) / 3.0` at the decimal precision
written in both revisions of `convertToFloat` [Poynton eq 28.1 p336]. -/
def kB : ℚ := 0.49211104112248356308804691718185

/-- `kR = sqrt(221990474.0 / 288439473.0)` at the decimal precision written in
both revisions of `convertToFloat`. -/
def kR : ℚ := 0.87728321993817866838972487283129

/-- The row/column write pattern shared by every plane loop of
`convertToFloat` (both revisions): for a row `y < activeHeight` the per-sample
conversion `f` is written at columns `x < activeWidth` and `0.0` at columns
`activeWidth ≤ x < width`; a row `y ≥ activeHeight` is written entirely as
`0.0`. -/
def convertPlane (width height activeWidth activeHeight : ℕ)
    (f : ℕ → ℕ → ℚ) : List (List ℚ) :=
  (List.range height).map fun y =>
    if y < activeHeight then
      (List.range activeWidth).map (fun x => f y x)
        ++ List.replicate (width - activeWidth) 0
    else
      List.replicate width 0

/-- The reader-derived inputs of `convertToFloat`: geometry, active-region
offsets (with the chroma-source fallback already applied, part_002 lines
238-241 / analog4fsc.cpp lines 233-236) and the calibration levels. -/
structure ConvertParams where
  width : ℕ
  height : ℕ
  activeWidth : ℕ
  activeHeight : ℕ
  firstActiveLine : ℕ
  activeVideoStart : ℕ
  uvFirstActiveLine : ℕ
  uvActiveVideoStart : ℕ
  black16bIre : ℚ
  white16bIre : ℚ

/-- `yOffset = reader->getBlack16bIre()`. -/
def yOffset (p : ConvertParams) : ℚ := p.black16bIre

/-- `yRange = reader->getWhite16bIre() - yOffset` (and `uvRange = yRange`). -/
def yRange (p : ConvertParams) : ℚ := p.white16bIre - yOffset p

namespace Scaled16

/-! The revision of `VSAnalog4fscSource::convertToFloat` in
`src/src/analog4fsc.cpp`: scale factors anchored to the 16-bit broadcast
encoding of ld-chroma-decoder's `outputwriter.cpp` (`Y_SCALE = 219*256`,
`C_SCALE = 112*256`) followed by explicit float normalisation factors. -/

/-- `Y_SCALE = 219.0 * 256.0` (analog4fsc.cpp line 203). -/
def Y_SCALE : ℚ := 219.0 * 256.0

/-- `C_SCALE = 112.0 * 256.0` (analog4fsc.cpp line 204). -/
def C_SCALE : ℚ := 112.0 * 256.0

/-- `ONE_MINUS_Kb = 1.0 - 0.114` (analog4fsc.cpp line 207). -/
def ONE_MINUS_Kb : ℚ := 1.0 - 0.114

/-- `ONE_MINUS_Kr = 1.0 - 0.299` (analog4fsc.cpp line 208). -/
def ONE_MINUS_Kr : ℚ := 1.0 - 0.299

/-- `yScale = Y_SCALE / yRange` (analog4fsc.cpp line 222). -/
def yScale (range : ℚ) : ℚ := Y_SCALE / range

/-- `cbScale = (C_SCALE / (ONE_MINUS_Kb * kB)) / uvRange` (line 223). -/
def cbScale (range : ℚ) : ℚ := C_SCALE / (ONE_MINUS_Kb * kB) / range

/-- `crScale = (C_SCALE / (ONE_MINUS_Kr * kR)) / uvRange` (line 224). -/
def crScale (range : ℚ) : ℚ := C_SCALE / (ONE_MINUS_Kr * kR) / range

/-- `yNorm = 1.0 / Y_SCALE` (analog4fsc.cpp line 229). -/
def yNorm : ℚ := 1 / Y_SCALE

/-- `cbNorm = 1.0 / (2.0 * C_SCALE / (ONE_MINUS_Kb * kB))` (line 230). -/
def cbNorm : ℚ := 1 / (2 * C_SCALE / (ONE_MINUS_Kb * kB))

/-- `crNorm = 1.0 / (2.0 * C_SCALE / (ONE_MINUS_Kr * kR))` (line 231). -/
def crNorm : ℚ := 1 / (2 * C_SCALE / (ONE_MINUS_Kr * kR))

/-- Luma plane written by the analog4fsc.cpp revision:
`yRow[x] = (srcY[x] - yOffset) * yScale * yNorm` inside the active region. -/
def convertY (p : ConvertParams) (luma : ComponentFrame) : List (List ℚ) :=
  convertPlane p.width p.height p.activeWidth p.activeHeight fun y x =>
    (luma.y (p.firstActiveLine + y) (p.activeVideoStart + x) - yOffset p)
      * yScale (yRange p) * yNorm

/-- Cb plane written by the analog4fsc.cpp revision:
`uRow[x] = srcU[x] * cbScale * cbNorm` inside the active region. -/
def convertU (p : ConvertParams) (uvSource : ComponentFrame) : List (List ℚ) :=
  convertPlane p.width p.height p.activeWidth p.activeHeight fun y x =>
    uvSource.u (p.uvFirstActiveLine + y) (p.uvActiveVideoStart + x)
      * cbScale (yRange p) * cbNorm

/-- Cr plane written by the analog4fsc.cpp revision:
`vRow[x] = srcV[x] * crScale * crNorm` inside the active region. -/
def convertV (p : ConvertParams) (uvSource : ComponentFrame) : List (List ℚ) :=
  convertPlane p.width p.height p.activeWidth p.activeHeight fun y x =>
    uvSource.v (p.uvFirstActiveLine + y) (p.uvActiveVideoStart + x)
      * crScale (yRange p) * crNorm

end Scaled16

namespace ScaledUnit

/-! The revision of `VSAnalog4fscSource::convertToFloat` in
`src/unnamed/part_002`: scale factors anchored directly to normalized float
excursions (`Y_SCALE = 1.0`, `C_SCALE = 1.0`) with the full colour-difference
excursions `2*(1-K)` written as the decimal literals `1.772` and `1.402`. -/

/-- `Y_SCALE = 1.0` (part_002 line 204). -/
def Y_SCALE : ℚ := 1.0

/-- `C_SCALE = 1.0` (part_002 line 205). -/
def C_SCALE : ℚ := 1.0

/-- `BLUE_DIFFERENCE_SCALE = 1.772` = `2 * (1 - 0.114)` (part_002 line 214). -/
def BLUE_DIFFERENCE_SCALE : ℚ := 1.772

/-- `RED_DIFFERENCE_SCALE = 1.402` = `2 * (1 - 0.299)` (part_002 line 215). -/
def RED_DIFFERENCE_SCALE : ℚ := 1.402

/-- `yScale = Y_SCALE / yRange` (part_002 line 234). -/
def yScale (range : ℚ) : ℚ := Y_SCALE / range

/-- `cbScale = (C_SCALE / (BLUE_DIFFERENCE_SCALE * kB)) / uvRange` (line 235). -/
def cbScale (range : ℚ) : ℚ := C_SCALE / (BLUE_DIFFERENCE_SCALE * kB) / range

/-- `crScale = (C_SCALE / (RED_DIFFERENCE_SCALE * kR)) / uvRange` (line 236). -/
def crScale (range : ℚ) : ℚ := C_SCALE / (RED_DIFFERENCE_SCALE * kR) / range

/-- Luma plane written by the part_002 revision:
`yRow[x] = (srcY[x] - yOffset) * yScale` inside the active region. -/
def convertY (p : ConvertParams) (luma : ComponentFrame) : List (List ℚ) :=
  convertPlane p.width p.height p.activeWidth p.activeHeight fun y x =>
    (luma.y (p.firstActiveLine + y) (p.activeVideoStart + x) - yOffset p)
      * yScale (yRange p)

/-- Cb plane written by the part_002 revision:
`uRow[x] = srcU[x] * cbScale` inside the active region. -/
def convertU (p : ConvertParams) (uvSource : ComponentFrame) : List (List ℚ) :=
  convertPlane p.width p.height p.activeWidth p.activeHeight fun y x =>
    uvSource.u (p.uvFirstActiveLine + y) (p.uvActiveVideoStart + x)
      * cbScale (yRange p)

/-- Cr plane written by the part_002 revision:
`vRow[x] = srcV[x] * crScale` inside the active region. -/
def convertV (p : ConvertParams) (uvSource : ComponentFrame) : List (List ℚ) :=
  convertPlane p.width p.height p.activeWidth p.activeHeight fun y x =>
    uvSource.v (p.uvFirstActiveLine + y) (p.uvActiveVideoStart + x)
      * crScale (yRange p)

end ScaledUnit

/-- The chroma scale formula as worded by the specification:
`scale = 1 / ((2*(1-K)) * k * range)` where `K` is the luma-matrix blue/red
coefficient and `k` the corresponding reduction factor. -/
def specChromaScale (K k range : ℚ) : ℚ := 1 / (2 * (1 - K) * k * range)

/-- The `VideoParams` struct of `jsonconverter_wrapper.cpp` with its in-struct
initial values (`system = "NTSC"`, numbers `0`, booleans `false`). -/
structure VideoParams where
  system : String
  numberOfSequentialFields : Int
  fieldWidth : Int
  fieldHeight : Int
  sampleRate : ℚ
  activeVideoStart : Int
  activeVideoEnd : Int
  colourBurstStart : Int
  colourBurstEnd : Int
  white16bIre : Int
  black16bIre : Int
  isMapped : Bool
  isSubcarrierLocked : Bool
  isWidescreen : Bool
  gitBranch : String
  gitCommit : String
  tapeFormat : String
deriving DecidableEq, Repr

/-- Default-constructed `VideoParams`. -/
def defaultVideoParams : VideoParams where
  system := "NTSC"
  numberOfSequentialFields := 0
  fieldWidth := 0
  fieldHeight := 0
  sampleRate := 0
  activeVideoStart := 0
  activeVideoEnd := 0
  colourBurstStart := 0
  colourBurstEnd := 0
  white16bIre := 0
  black16bIre := 0
  isMapped := false
  isSubcarrierLocked := false
  isWidescreen := false
  gitBranch := ""
  gitCommit := ""
  tapeFormat := ""

/-- A JSON `videoParameters` object: each recognised key present or absent. -/
structure JsonVideoParams where
  system : Option String
  numberOfSequentialFields : Option Int
  fieldWidth : Option Int
  fieldHeight : Option Int
  sampleRate : Option ℚ
  activeVideoStart : Option Int
  activeVideoEnd : Option Int
  colourBurstStart : Option Int
  colourBurstEnd : Option Int
  white16bIre : Option Int
  black16bIre : Option Int
  isMapped : Option Bool
  isSubcarrierLocked : Option Bool
  isWidescreen : Option Bool
  gitBranch : Option String
  gitCommit : Option String
  tapeFormat : Option String
deriving DecidableEq, Repr

/-- `parseVideoParams` from `jsonconverter_wrapper.cpp`: each present key
overrides the default-constructed struct value. -/
def parseVideoParams (obj : JsonVideoParams) : VideoParams where
  system := obj.system.getD "NTSC"
  numberOfSequentialFields := obj.numberOfSequentialFields.getD 0
  fieldWidth := obj.fieldWidth.getD 0
  fieldHeight := obj.fieldHeight.getD 0
  sampleRate := obj.sampleRate.getD 0
  activeVideoStart := obj.activeVideoStart.getD 0
  activeVideoEnd := obj.activeVideoEnd.getD 0
  colourBurstStart := obj.colourBurstStart.getD 0
  colourBurstEnd := obj.colourBurstEnd.getD 0
  white16bIre := obj.white16bIre.getD 0
  black16bIre := obj.black16bIre.getD 0
  isMapped := obj.isMapped.getD false
  isSubcarrierLocked := obj.isSubcarrierLocked.getD false
  isWidescreen := obj.isWidescreen.getD false
  gitBranch := obj.gitBranch.getD ""
  gitCommit := obj.gitCommit.getD ""
  tapeFormat := obj.tapeFormat.getD ""

/-- A JSON `fields` array element: each recognised key present or absent. -/
structure JsonField where
  seqNo : Option Int
  isFirstField : Option Bool
  syncConf : Option Int
  medianBurstIRE : Option ℚ
  fieldPhaseID : Option Int
  audioSamples : Option Int
  diskLoc : Option ℚ
  fileLoc : Option Int
  decodeFaults : Option Int
  efmTValues : Option Int
  pad : Option Bool
deriving DecidableEq, Repr

/-- The `FieldData` struct of `jsonconverter_wrapper.cpp` with its in-struct
initial values. -/
structure FieldData where
  seqNo : Int
  isFirstField : Bool
  syncConf : Int
  medianBurstIRE : ℚ
  fieldPhaseID : Int
  audioSamples : Int
  diskLoc : ℚ
  fileLoc : Int
  decodeFaults : Int
  efmTValues : Int
  pad : Bool
deriving DecidableEq, Repr

/-- `parseField` from `jsonconverter_wrapper.cpp`: present keys override the
in-struct defaults (`seqNo 0`, `syncConf 0`, `audioSamples -1`, `diskLoc -1`,
`fileLoc -1`, `decodeFaults -1`, `efmTValues -1`, booleans false). -/
def parseField (obj : JsonField) : FieldData where
  seqNo := obj.seqNo.getD 0
  isFirstField := obj.isFirstField.getD false
  syncConf := obj.syncConf.getD 0
  medianBurstIRE := obj.medianBurstIRE.getD 0
  fieldPhaseID := obj.fieldPhaseID.getD 0
  audioSamples := obj.audioSamples.getD (-1)
  diskLoc := obj.diskLoc.getD (-1)
  fileLoc := obj.fileLoc.getD (-1)
  decodeFaults := obj.decodeFaults.getD (-1)
  efmTValues := obj.efmTValues.getD (-1)
  pad := obj.pad.getD false

/-- A JSON metadata sidecar document: optional `videoParameters` object and
optional `fields` array. -/
structure JsonMetadata where
  videoParameters : Option JsonVideoParams
  fields : Option (List JsonField)
deriving DecidableEq, Repr

/-- A row of the `capture` table. `system` and `decoder` are NOT NULL; every
other column is nullable, a NULL being `none`. -/
structure CaptureRow where
  system : String
  decoder : String
  git_branch : Option String
  git_commit : Option String
  video_sample_rate : Option ℚ
  active_video_start : Option Int
  active_video_end : Option Int
  field_width : Option Int
  field_height : Option Int
  number_of_sequential_fields : Option Int
  colour_burst_start : Option Int
  colour_burst_end : Option Int
  is_mapped : Option Int
  is_subcarrier_locked : Option Int
  is_widescreen : Option Int
  white_16b_ire : Option Int
  black_16b_ire : Option Int
  blanking_16b_ire : Option Int
  capture_notes : Option String
deriving DecidableEq, Repr

/-- A row of the `field_record` table (for `capture_id = 1`). `field_id` is
NOT NULL and, with `capture_id`, the primary key; the remaining columns are
nullable. -/
structure FieldRow where
  field_id : Int
  audio_samples : Option Int
  decode_faults : Option Int
  disk_loc : Option ℚ
  efm_t_values : Option Int
  field_phase_id : Option Int
  file_loc : Option Int
  is_first_field : Option Int
  median_burst_ire : Option ℚ
  pad : Option Int
  sync_conf : Option Int
deriving DecidableEq, Repr

/-- The structured store: at most one `capture` row (the one with
`capture_id = 1`) and the `field_record` rows. -/
structure Database where
  capture : Option CaptureRow
  fieldRows : List FieldRow
deriving DecidableEq, Repr

/-- The `capture` INSERT of `convertJsonToSqlite` (lines 240-288): every
numeric column is bound non-NULL; `git_branch`, `git_commit` and
`capture_notes` are bound NULL when the corresponding string is empty;
`number_of_sequential_fields` is bound to `fields.size()`;
`blanking_16b_ire` mirrors `black16bIre`. -/
def captureRowOfParams (p : VideoParams) (numFields : Int) : CaptureRow where
  system := p.system
  decoder := "ld-decode"
  git_branch := if p.gitBranch = "" then none else some p.gitBranch
  git_commit := if p.gitCommit = "" then none else some p.gitCommit
  video_sample_rate := some p.sampleRate
  active_video_start := some p.activeVideoStart
  active_video_end := some p.activeVideoEnd
  field_width := some p.fieldWidth
  field_height := some p.fieldHeight
  number_of_sequential_fields := some numFields
  colour_burst_start := some p.colourBurstStart
  colour_burst_end := some p.colourBurstEnd
  is_mapped := some (if p.isMapped then 1 else 0)
  is_subcarrier_locked := some (if p.isSubcarrierLocked then 1 else 0)
  is_widescreen := some (if p.isWidescreen then 1 else 0)
  white_16b_ire := some p.white16bIre
  black_16b_ire := some p.black16bIre
  blanking_16b_ire := some p.black16bIre
  capture_notes := if p.tapeFormat = "" then none else some p.tapeFormat

/-- The `field_record` INSERT of `convertJsonToSqlite` (lines 317-370):
`seqNo` is used directly as `field_id`; `audioSamples`, `decodeFaults`,
`diskLoc`, `efmTValues` and `fileLoc` are bound NULL unless strictly
positive. -/
def fieldRowOfData (f : FieldData) : FieldRow where
  field_id := f.seqNo
  audio_samples := if 0 < f.audioSamples then some f.audioSamples else none
  decode_faults := if 0 < f.decodeFaults then some f.decodeFaults else none
  disk_loc := if 0 < f.diskLoc then some f.diskLoc else none
  efm_t_values := if 0 < f.efmTValues then some f.efmTValues else none
  field_phase_id := some f.fieldPhaseID
  file_loc := if 0 < f.fileLoc then some f.fileLoc else none
  is_first_field := some (if f.isFirstField then 1 else 0)
  median_burst_ire := some f.medianBurstIRE
  pad := some (if f.pad then 1 else 0)
  sync_conf := some f.syncConf

/-- The CHECK constraints of the `capture` schema that depend on the JSON
input: `system IN ('NTSC','PAL','PAL_M')` (the `decoder` and 0/1 CHECKs are
satisfied by construction of the INSERT). -/
def captureInsertOk (cap : CaptureRow) : Bool :=
  cap.system == "NTSC" || cap.system == "PAL" || cap.system == "PAL_M"

/-- The `videoParameters` parse of `convertJsonToSqlite` (lines 192-196): a
default-constructed `VideoParams` overridden by the object when present. -/
def parsedVideoParams (doc : JsonMetadata) : VideoParams :=
  match doc.videoParameters with
  | some obj => parseVideoParams obj
  | none => defaultVideoParams

/-- `convertJsonToSqlite` from `jsonconverter_wrapper.cpp`: parse the
`videoParameters` object (default struct if absent) and the `fields` array,
then write one `capture` row and one `field_record` row per array element in
a single transaction. A CHECK-constraint violation or a duplicate
`(capture_id, field_id)` primary key fails the INSERT and rolls the whole
transaction back, leaving no store: modelled as `none`. -/
def convertJsonToSqlite (doc : JsonMetadata) : Option Database :=
  let videoParams := parsedVideoParams doc
  let fields := (doc.fields.getD []).map parseField
  let cap := captureRowOfParams videoParams (fields.length : Int)
  let rows := fields.map fieldRowOfData
  if captureInsertOk cap && decide (rows.map (·.field_id)).Nodup then
    some { capture := some cap, fieldRows := rows }
  else
    none

/-- System-string parsing of `readVideoParameters` (part_003 lines 69-76):
`"PAL"` and `"PAL_M"` map to themselves, everything else to NTSC. -/
def parseSystemString (s : String) : VideoSystem :=
  if s = "PAL" then .PAL else if s = "PAL_M" then .PAL_M else .NTSC

/-- Subcarrier frequency derived from the system on read-back (part_003
lines 91-111). -/
def systemFsc : VideoSystem → ℚ
  | .PAL => 283.75 * 15625.0 + 25.0
  | .PAL_M => 5.0e6 * (63.0 / 88.0) * (909.0 / 910.0)
  | .NTSC => 315.0e6 / 88.0

/-- `firstActiveFrameLine` derived from the system on read-back. -/
def systemFirstActiveFrameLine : VideoSystem → Int
  | .PAL => 44
  | .PAL_M => 40
  | .NTSC => 40

/-- `lastActiveFrameLine` derived from the system on read-back. -/
def systemLastActiveFrameLine : VideoSystem → Int
  | .PAL => 620
  | .PAL_M => 525
  | .NTSC => 525

/-- `LdDecodeMetaData::VideoParameters` as populated by
`readVideoParameters` in `sqlite3_metadata_reader.cpp`. -/
structure VideoParameters where
  system : VideoSystem
  sampleRate : ℚ
  fieldWidth : Int
  fieldHeight : Int
  activeVideoStart : Int
  activeVideoEnd : Int
  colourBurstStart : Int
  colourBurstEnd : Int
  white16bIre : Int
  black16bIre : Int
  isSubcarrierLocked : Bool
  isWidescreen : Bool
  numberOfSequentialFields : Int
  fSC : ℚ
  firstActiveFrameLine : Int
  lastActiveFrameLine : Int
  isValid : Bool
deriving DecidableEq, Repr

/-- `readVideoParameters` from `sqlite3_metadata_reader.cpp` (part_003 lines
45-126): fails (`SQLITE_ROW` not returned) when there is no capture row;
otherwise populates the struct with the column values (NULL columns read as
the `getIntColumn`/`getDoubleColumn` default `0`), recomputes the derived
constants from the system, and sets `isValid = true`. -/
def readVideoParameters (db : Database) : Option VideoParameters :=
  match db.capture with
  | none => none
  | some cap =>
      let sys := parseSystemString cap.system
      some {
        system := sys
        sampleRate := cap.video_sample_rate.getD 0
        fieldWidth := cap.field_width.getD 0
        fieldHeight := cap.field_height.getD 0
        activeVideoStart := cap.active_video_start.getD 0
        activeVideoEnd := cap.active_video_end.getD 0
        colourBurstStart := cap.colour_burst_start.getD 0
        colourBurstEnd := cap.colour_burst_end.getD 0
        white16bIre := cap.white_16b_ire.getD 0
        black16bIre := cap.black_16b_ire.getD 0
        isSubcarrierLocked := cap.is_subcarrier_locked.getD 0 != 0
        isWidescreen := cap.is_widescreen.getD 0 != 0
        numberOfSequentialFields := cap.number_of_sequential_fields.getD 0
        fSC := systemFsc sys
        firstActiveFrameLine := systemFirstActiveFrameLine sys
        lastActiveFrameLine := systemLastActiveFrameLine sys
        isValid := true }

/-- `LdDecodeMetaData::Field` as populated by `readFields`. -/
structure Field where
  seqNo : Int
  isFirstField : Bool
  syncConf : Int
  medianBurstIRE : ℚ
  fieldPhaseID : Int
  audioSamples : Int
  diskLoc : ℚ
  fileLoc : Int
  decodeFaults : Int
  pad : Bool
deriving DecidableEq, Repr

/-- One `field_record` row translated by the `readFields` loop (part_003
lines 146-163): `seqNo = field_id + 1` and the NULL defaults of the helper
getters (`syncConf 100`, `audioSamples -1`, `diskLoc -1`, `fileLoc -1`,
`decodeFaults 0`). -/
def readFieldRow (r : FieldRow) : Field where
  seqNo := r.field_id + 1
  isFirstField := r.is_first_field.getD 0 != 0
  syncConf := r.sync_conf.getD 100
  medianBurstIRE := r.median_burst_ire.getD 0
  fieldPhaseID := r.field_phase_id.getD 0
  audioSamples := r.audio_samples.getD (-1)
  diskLoc := r.disk_loc.getD (-1)
  fileLoc := r.file_loc.getD (-1)
  decodeFaults := r.decode_faults.getD 0
  pad := r.pad.getD 0 != 0

/-- The `ORDER BY field_id` of the `readFields` query. -/
def orderByFieldId (rows : List FieldRow) : List FieldRow :=
  List.insertionSort (fun a b => a.field_id ≤ b.field_id) rows

/-- `readFields` from `sqlite3_metadata_reader.cpp` (part_003 lines 128-174):
reads every `field_record` row ordered by `field_id`, translating each; fails
when no row was read. -/
def readFields (db : Database) : Option (List Field) :=
  let fs := (orderByFieldId db.fieldRows).map readFieldRow
  if fs.length = 0 then none else some fs

/-- `Sqlite3MetadataReader::read` (part_003 lines 178-207): video parameters
then field records; any failure propagates. -/
def sqlite3Read (db : Database) : Option (VideoParameters × List Field) := do
  let vp ← readVideoParameters db
  let fs ← readFields db
  pure (vp, fs)

/-! Concrete sample inputs used by witnesses and counterexamples. -/

/-- A 2x2 output with a 1x1 active region, black 0 and white 1. -/
def samplePadParams : ConvertParams :=
  { width := 2, height := 2, activeWidth := 1, activeHeight := 1
    firstActiveLine := 0, activeVideoStart := 0
    uvFirstActiveLine := 0, uvActiveVideoStart := 0
    black16bIre := 0, white16bIre := 1 }

/-- A 1x1 output entirely active, black 0 and white 1 (range 1). -/
def sampleActiveParams : ConvertParams :=
  { width := 1, height := 1, activeWidth := 1, activeHeight := 1
    firstActiveLine := 0, activeVideoStart := 0
    uvFirstActiveLine := 0, uvActiveVideoStart := 0
    black16bIre := 0, white16bIre := 1 }

/-- A component frame whose samples are all `1`. -/
def sampleOnesFrame : ComponentFrame :=
  { y := fun _ _ => 1, u := fun _ _ => 1, v := fun _ _ => 1 }

/-- A JSON `fields` element carrying only a `seqNo` key. -/
def jsonFieldWithSeqNo (n : Int) : JsonField :=
  { seqNo := some n, isFirstField := none, syncConf := none
    medianBurstIRE := none, fieldPhaseID := none, audioSamples := none
    diskLoc := none, fileLoc := none, decodeFaults := none
    efmTValues := none, pad := none }

/-- A one-element JSON sidecar whose single field carries `seqNo = 1`
(one-indexed, as ld-decode JSON numbers its fields). -/
def sampleJsonSeq1 : JsonMetadata :=
  { videoParameters := none, fields := some [jsonFieldWithSeqNo 1] }

/-- A one-element JSON sidecar whose single field carries `seqNo = 0`
(zero-indexed, as the vhs-decode JSON the converter expects). -/
def sampleJsonSeq0 : JsonMetadata :=
  { videoParameters := none, fields := some [jsonFieldWithSeqNo 0] }

/-- A sidecar with the `numberOfSequentialFields` key of its parsed
`videoParameters` object `obj` replaced by `n`. -/
def setNumSeqFields (doc : JsonMetadata) (obj : JsonVideoParams) (n : Option Int) : JsonMetadata :=
  { doc with videoParameters := some ({ obj with numberOfSequentialFields := n }) }

/-- A JSON `videoParameters` object carrying only
`numberOfSequentialFields = 99`. -/
def sampleJsonVpObj : JsonVideoParams :=
  { system := none, numberOfSequentialFields := some 99
    fieldWidth := none, fieldHeight := none, sampleRate := none
    activeVideoStart := none, activeVideoEnd := none
    colourBurstStart := none, colourBurstEnd := none
    white16bIre := none, black16bIre := none
    isMapped := none, isSubcarrierLocked := none, isWidescreen := none
    gitBranch := none, gitCommit := none, tapeFormat := none }

/-- A JSON sidecar with the sample `videoParameters` object and one field. -/
def sampleJsonWithVp : JsonMetadata :=
  { videoParameters := some sampleJsonVpObj
    fields := some [jsonFieldWithSeqNo 0] }

/-- The store `convertJsonToSqlite` produces from `sampleJsonWithVp`. -/
def sampleConvertedDb : Database :=
  { capture := some (captureRowOfParams (parseVideoParams sampleJsonVpObj) 1)
    fieldRows := [fieldRowOfData (parseField (jsonFieldWithSeqNo 0))] }

/-- A capture row with every nullable column NULL. -/
def sampleCaptureRow : CaptureRow :=
  { system := "NTSC", decoder := "ld-decode"
    git_branch := none, git_commit := none, video_sample_rate := none
    active_video_start := none, active_video_end := none
    field_width := none, field_height := none
    number_of_sequential_fields := none
    colour_burst_start := none, colour_burst_end := none
    is_mapped := none, is_subcarrier_locked := none, is_widescreen := none
    white_16b_ire := none, black_16b_ire := none, blanking_16b_ire := none
    capture_notes := none }

/-- A field-record row with `field_id = 0` and every nullable column NULL. -/
def sampleFieldRow : FieldRow :=
  { field_id := 0
    audio_samples := none, decode_faults := none, disk_loc := none
    efm_t_values := none, field_phase_id := none, file_loc := none
    is_first_field := none, median_burst_ire := none, pad := none
    sync_conf := none }

/-- A store holding the sample capture row and one field row. -/
def sampleDatabase : Database :=
  { capture := some sampleCaptureRow, fieldRows := [sampleFieldRow] }

/-- The video parameters `readVideoParameters` produces from
`sampleDatabase`. -/
def sampleReadVideoParameters : VideoParameters :=
  { system := parseSystemString "NTSC"
    sampleRate := 0, fieldWidth := 0, fieldHeight := 0
    activeVideoStart := 0, activeVideoEnd := 0
    colourBurstStart := 0, colourBurstEnd := 0
    white16bIre := 0, black16bIre := 0
    isSubcarrierLocked := false, isWidescreen := false
    numberOfSequentialFields := 0
    fSC := systemFsc (parseSystemString "NTSC")
    firstActiveFrameLine := systemFirstActiveFrameLine (parseSystemString "NTSC")
    lastActiveFrameLine := systemLastActiveFrameLine (parseSystemString "NTSC")
    isValid := true }

/-! ## Theorems -/

/-- C2 (counterexample): the claim says that with `decoder = Auto` a
PAL-family colour carrier resolves to the 2D frequency-space (Transform)
filter; on a PAL capture the code resolves `Auto` to `Pal2D`, the standard 2D
PALcolour filter, which is not the Transform filter. -/
theorem configureDecoder_auto_pal_not_transform :
    configureDecoder .Auto .PAL = .Pal2D ∧
      configureDecoder .Auto .PAL ≠ .Transform2D := by
  decide

/-- C2 (amended): with `decoder = Auto`, an NTSC colour carrier resolves to
the 2-dimensional non-adaptive comb filter (`Ntsc2D`), while the PAL-family
carriers (PAL and PAL-M) resolve to the standard 2D PALcolour filter
(`Pal2D`), not the frequency-space Transform filter. -/
theorem configureDecoder_auto_defaults :
    configureDecoder .Auto .NTSC = .Ntsc2D ∧
      configureDecoder .Auto .PAL = .Pal2D ∧
      configureDecoder .Auto .PAL_M = .Pal2D := by
  decide

/-- C5: an explicitly configured decoder whose family mismatches the
capture's colour-carrier family is silently replaced by the detected family's
default engine (the engine `Auto` would resolve to); `Mono` is never
substituted; and the resolved decoder is never `Auto`, so
`configureDecoder`'s only failure branch is unreachable and open never fails
for a family mismatch. -/
theorem configureDecoder_mismatch_fallback (d : DecoderType) (s : VideoSystem) :
    (isNtscFamilyDecoder d = true → isNtscColorCarrier s = false →
      configureDecoder d s = configureDecoder .Auto s) ∧
    (isPalFamilyDecoder d = true → isNtscColorCarrier s = true →
      configureDecoder d s = configureDecoder .Auto s) ∧
    configureDecoder .Mono s = .Mono ∧
    configureDecoder d s ≠ .Auto := by
  cases d <;> cases s <;> exact (by decide)

/-- C5 (witness): `pal2d` requested on an NTSC capture resolves to the NTSC
default engine, and `ntsc2d` requested on a PAL capture resolves to the PAL
default engine. -/
theorem configureDecoder_mismatch_fallback_witness :
    configureDecoder .Pal2D .NTSC = configureDecoder .Auto .NTSC ∧
      configureDecoder .Ntsc2D .PAL = configureDecoder .Auto .PAL :=
  ⟨(configureDecoder_mismatch_fallback .Pal2D .NTSC).2.1 (by decide) (by decide),
   (configureDecoder_mismatch_fallback .Ntsc2D .PAL).1 (by decide) (by decide)⟩

/-- C3 (counterexample): for source path `video.tbc` (base name `video`) with
no structured store present and JSON present at `video.json`, the store is
synthesized at `video.tbc.db` — the full-path candidate — not at the first
`.db` candidate `video.db` the claim names. -/
theorem resolveMetadata_counterexample :
    resolveMetadata (fun s => s == "video.json") "video" "video.tbc" =
        .converted "video.json" "video.tbc.db" ∧
      "video.tbc.db" ≠ "video.db" := by
  constructor
  · rfl
  · decide

/-- C3 (amended): metadata resolution checks `base(P)+".db"` then
`P+".db"`; if neither exists it checks JSON at `base(P)+".json"`,
`P+".json"`, `base(P)+".tbc.json"` in that order; when JSON is found the
structured store is synthesized at `P+".db"` — the `.db` candidate left in
the `dbPath` variable after the fallback assignment — not at
`base(P)+".db"`. -/
theorem resolveMetadata_order (fs : String → Bool) (base p : String) :
    (fs (base ++ ".db") = true →
      resolveMetadata fs base p = .store (base ++ ".db")) ∧
    (fs (base ++ ".db") = false → fs (p ++ ".db") = true →
      resolveMetadata fs base p = .store (p ++ ".db")) ∧
    (fs (base ++ ".db") = false → fs (p ++ ".db") = false →
      fs (base ++ ".json") = true →
      resolveMetadata fs base p = .converted (base ++ ".json") (p ++ ".db")) ∧
    (fs (base ++ ".db") = false → fs (p ++ ".db") = false →
      fs (base ++ ".json") = false → fs (p ++ ".json") = true →
      resolveMetadata fs base p = .converted (p ++ ".json") (p ++ ".db")) ∧
    (fs (base ++ ".db") = false → fs (p ++ ".db") = false →
      fs (base ++ ".json") = false → fs (p ++ ".json") = false →
      fs (base ++ ".tbc.json") = true →
      resolveMetadata fs base p = .converted (base ++ ".tbc.json") (p ++ ".db")) ∧
    (fs (base ++ ".db") = false → fs (p ++ ".db") = false →
      fs (base ++ ".json") = false → fs (p ++ ".json") = false →
      fs (base ++ ".tbc.json") = false →
      resolveMetadata fs base p = .notFound) := by
  refine ⟨fun h1 => ?_, fun h1 h2 => ?_, fun h1 h2 h3 => ?_,
    fun h1 h2 h3 h4 => ?_, fun h1 h2 h3 h4 h5 => ?_, fun h1 h2 h3 h4 h5 => ?_⟩ <;>
    simp_all [resolveMetadata]

/-- C3 (amended, witness): with only `video.db` on disk the store at
`video.db` is used; with only `video.json` on disk the conversion target is
`video.tbc.db`. -/
theorem resolveMetadata_order_witness :
    resolveMetadata (fun s => s == "video.db") "video" "video.tbc" =
        .store ("video" ++ ".db") ∧
      resolveMetadata (fun s => s == "video.json") "video" "video.tbc" =
        .converted ("video" ++ ".json") ("video.tbc" ++ ".db") :=
  ⟨(resolveMetadata_order (fun s => s == "video.db") "video" "video.tbc").1
      (by decide),
   (resolveMetadata_order (fun s => s == "video.json") "video" "video.tbc").2.2.1
      (by decide) (by decide) (by decide)⟩

/-- C10: a negative configured `paddingMultiple` behaves exactly like `0`:
the rounding branch is guarded by `paddingMultiple > 0`, so the output
dimension equals the active dimension. -/
theorem computeOutputDim_negative_padding (a p : Int) (hp : p < 0) :
    computeOutputDim a p = a ∧ computeOutputDim a p = computeOutputDim a 0 := by
  have h1 : ¬(0 : Int) < p := by omega
  have h2 : ¬(0 : Int) < 0 := by omega
  unfold computeOutputDim
  rw [if_neg h1, if_neg h2]
  exact ⟨rfl, rfl⟩

/-- C10 (witness): `paddingMultiple = -3` leaves an active dimension of 5
unrounded, just like `paddingMultiple = 0`. -/
theorem computeOutputDim_negative_padding_witness :
    computeOutputDim 5 (-3) = 5 ∧ computeOutputDim 5 (-3) = computeOutputDim 5 0 :=
  computeOutputDim_negative_padding 5 (-3) (by decide)

/-- On a nonnegative dividend the C round-up expression computes the rational
ceiling: `(a + p - 1) / p = ⌈a / p⌉` for `0 < p`, `0 ≤ a`. -/
theorem tdiv_roundUp_eq_ceil (a p : Int) (hp : 0 < p) (ha : 0 ≤ a) :
    (a + p - 1).tdiv p = ⌈(a : ℚ) / (p : ℚ)⌉ := by
  have hnum : 0 ≤ a + p - 1 := by omega
  rw [Int.tdiv_eq_ediv hnum hp.le]
  have hp0 : p ≠ 0 := by omega
  have hq := Int.ediv_add_emod (a + p - 1) p
  have hr0 : 0 ≤ (a + p - 1) % p := Int.emod_nonneg _ hp0
  have hrp : (a + p - 1) % p < p := Int.emod_lt_of_pos _ hp
  have hrp1 : (a + p - 1) % p ≤ p - 1 := by omega
  set q := (a + p - 1) / p with hqdef
  set r := (a + p - 1) % p with hrdef
  have hple : a ≤ q * p := by nlinarith
  have hplt : (q - 1) * p < a := by nlinarith
  have hpQ : (0 : ℚ) < (p : ℚ) := by exact_mod_cast hp
  symm
  rw [Int.ceil_eq_iff]
  constructor
  · rw [show ((q : ℚ) - 1) = ((q - 1 : Int) : ℚ) by push_cast; ring,
      lt_div_iff₀ hpQ]
    exact_mod_cast hplt
  · rw [div_le_iff₀ hpQ]
    exact_mod_cast hple

/-- The rounded output dimension never falls below the active dimension. -/
theorem le_computeOutputDim (a p : Int) : a ≤ computeOutputDim a p := by
  unfold computeOutputDim
  split
  case isTrue hp =>
    rcases le_or_lt 0 (a + p - 1) with hnum | hnum
    · rw [Int.tdiv_eq_ediv hnum hp.le]
      have hq := Int.ediv_add_emod (a + p - 1) p
      have hrp := Int.emod_lt_of_pos (a + p - 1) hp
      have hrp1 : (a + p - 1) % p ≤ p - 1 := by omega
      nlinarith
    · have hn : 0 ≤ -(a + p - 1) := by omega
      have he : (a + p - 1).tdiv p = -((-(a + p - 1)).tdiv p) := by
        rw [← Int.neg_tdiv, neg_neg]
      rw [he, Int.tdiv_eq_ediv hn hp.le]
      have hq := Int.ediv_add_emod (-(a + p - 1)) p
      have hr0 : 0 ≤ -(a + p - 1) % p := Int.emod_nonneg _ (by omega)
      nlinarith
  case isFalse hp => exact le_refl a

/-- C6: for every opened reader's dimension, `paddingMultiple == 0` leaves
the output dimension equal to the active dimension; a positive
`paddingMultiple` rounds a (nonnegative) active dimension up to
`ceil(activeDim / paddingMultiple) * paddingMultiple`; and in every case
`outputDim ≥ activeDim`. -/
theorem computeOutputDim_law (a p : Int) :
    (p = 0 → computeOutputDim a p = a) ∧
    (0 < p → 0 ≤ a → computeOutputDim a p = ⌈(a : ℚ) / (p : ℚ)⌉ * p) ∧
    a ≤ computeOutputDim a p := by
  refine ⟨fun hp => ?_, fun hp ha => ?_, le_computeOutputDim a p⟩
  · unfold computeOutputDim
    rw [if_neg (by omega)]
  · unfold computeOutputDim
    rw [if_pos hp, tdiv_roundUp_eq_ceil a p hp ha]

/-- C6 (witness): active width 758 with padding multiple 8 rounds up to
`⌈758/8⌉*8 = 760`, and padding multiple 0 leaves 758. -/
theorem computeOutputDim_law_witness :
    computeOutputDim 758 8 = ⌈(758 : ℚ) / (8 : ℚ)⌉ * 8 ∧
      computeOutputDim 758 0 = 758 ∧
      computeOutputDim 758 8 = 760 := by
  refine ⟨(computeOutputDim_law 758 8).2.1 (by norm_num) (by norm_num),
    (computeOutputDim_law 758 0).1 rfl, ?_⟩
  have hc : ⌈(((758 : Int) : ℚ)) / (((8 : Int) : ℚ))⌉ = (95 : Int) := by
    rw [Int.ceil_eq_iff]
    norm_num
  rw [(computeOutputDim_law 758 8).2.1 (by norm_num) (by norm_num), hc]
  norm_num

/-- Row access of a converted plane: row `y < height` is the active-region
row (active samples then horizontal padding) when `y < activeHeight`, an
all-zero row otherwise. -/
theorem convertPlane_getD_row (w h aw ah : ℕ) (f : ℕ → ℕ → ℚ) (y : ℕ)
    (hy : y < h) :
    (convertPlane w h aw ah f).getD y [] =
      (if y < ah then
        (List.range aw).map (fun x => f y x) ++ List.replicate (w - aw) 0
      else List.replicate w 0) := by
  have hlen : y < (convertPlane w h aw ah f).length := by
    simpa [convertPlane] using hy
  rw [List.getD_eq_getElem _ _ hlen]
  simp [convertPlane]

/-- An active-region sample of a converted plane is the per-sample
conversion. -/
theorem convertPlane_active (w h aw ah : ℕ) (f : ℕ → ℕ → ℚ) (y x : ℕ)
    (hy : y < h) (hya : y < ah) (hx : x < aw) :
    ((convertPlane w h aw ah f).getD y []).getD x 0 = f y x := by
  rw [convertPlane_getD_row w h aw ah f y hy, if_pos hya]
  have hxlen : x <
      ((List.range aw).map (fun x => f y x) ++ List.replicate (w - aw) (0 : ℚ)).length := by
    simp
    omega
  rw [List.getD_eq_getElem _ _ hxlen, List.getElem_append,
    dif_pos (show x < ((List.range aw).map (fun x => f y x)).length by simpa using hx)]
  simp

/-- A padding sample of a converted plane is `0`. -/
theorem convertPlane_padding (w h aw ah : ℕ) (f : ℕ → ℕ → ℚ) (y x : ℕ)
    (hy : y < h) (hx : x < w) (haw : aw ≤ w) (hpad : aw ≤ x ∨ ah ≤ y) :
    ((convertPlane w h aw ah f).getD y []).getD x 0 = 0 := by
  rw [convertPlane_getD_row w h aw ah f y hy]
  by_cases hya : y < ah
  · rw [if_pos hya]
    have hxa : aw ≤ x := hpad.resolve_right (by omega)
    have hxlen : x <
        ((List.range aw).map (fun x => f y x) ++ List.replicate (w - aw) (0 : ℚ)).length := by
      simp
      omega
    rw [List.getD_eq_getElem _ _ hxlen, List.getElem_append,
      dif_neg (show ¬x < ((List.range aw).map (fun x => f y x)).length by simp; omega)]
    simp
  · rw [if_neg hya]
    have hxlen : x < (List.replicate w (0 : ℚ)).length := by simpa using hx
    rw [List.getD_eq_getElem _ _ hxlen]
    simp

/-- C7: every destination sample at a column `x ≥ activeWidth` or a row
`y ≥ activeHeight` (within the output geometry) is written as exactly `0`,
in the luma plane and in both chroma planes, in both revisions of
`convertToFloat`. -/
theorem convertToFloat_padding_neutral (p : ConvertParams)
    (luma uvSource : ComponentFrame) (y x : ℕ)
    (hy : y < p.height) (hx : x < p.width) (haw : p.activeWidth ≤ p.width)
    (hpad : p.activeWidth ≤ x ∨ p.activeHeight ≤ y) :
    (((Scaled16.convertY p luma).getD y []).getD x 0 = 0 ∧
      ((Scaled16.convertU p uvSource).getD y []).getD x 0 = 0 ∧
      ((Scaled16.convertV p uvSource).getD y []).getD x 0 = 0) ∧
    (((ScaledUnit.convertY p luma).getD y []).getD x 0 = 0 ∧
      ((ScaledUnit.convertU p uvSource).getD y []).getD x 0 = 0 ∧
      ((ScaledUnit.convertV p uvSource).getD y []).getD x 0 = 0) := by
  unfold Scaled16.convertY Scaled16.convertU Scaled16.convertV
    ScaledUnit.convertY ScaledUnit.convertU ScaledUnit.convertV
  exact ⟨⟨convertPlane_padding _ _ _ _ _ y x hy hx haw hpad,
      convertPlane_padding _ _ _ _ _ y x hy hx haw hpad,
      convertPlane_padding _ _ _ _ _ y x hy hx haw hpad⟩,
    convertPlane_padding _ _ _ _ _ y x hy hx haw hpad,
    convertPlane_padding _ _ _ _ _ y x hy hx haw hpad,
    convertPlane_padding _ _ _ _ _ y x hy hx haw hpad⟩

/-- C7 (witness): in a 2x2 output with a 1x1 active region over an all-ones
frame, the sample at `(1,1)` is `0` in every plane of both revisions. -/
theorem convertToFloat_padding_neutral_witness :
    ((Scaled16.convertY samplePadParams sampleOnesFrame).getD 1 []).getD 1 0 = 0 ∧
      ((ScaledUnit.convertU samplePadParams sampleOnesFrame).getD 1 []).getD 1 0 = 0 := by
  have h := convertToFloat_padding_neutral samplePadParams sampleOnesFrame
    sampleOnesFrame 1 1 (by decide) (by decide) (by decide) (Or.inl (by decide))
  exact ⟨h.1.1, h.2.2.1⟩

theorem kB_ne_zero : kB ≠ 0 := by norm_num [kB]

theorem kR_ne_zero : kR ≠ 0 := by norm_num [kR]

/-- The part_002 `cbScale` is literally the specification's formula: its
`BLUE_DIFFERENCE_SCALE = 1.772` equals `2*(1-0.114)` exactly. -/
theorem scaledUnit_cbScale_eq_spec (range : ℚ) :
    ScaledUnit.cbScale range = specChromaScale 0.114 kB range := by
  unfold ScaledUnit.cbScale ScaledUnit.C_SCALE ScaledUnit.BLUE_DIFFERENCE_SCALE
    specChromaScale
  rw [div_div]
  norm_num

/-- The part_002 `crScale` is literally the specification's formula: its
`RED_DIFFERENCE_SCALE = 1.402` equals `2*(1-0.299)` exactly. -/
theorem scaledUnit_crScale_eq_spec (range : ℚ) :
    ScaledUnit.crScale range = specChromaScale 0.299 kR range := by
  unfold ScaledUnit.crScale ScaledUnit.C_SCALE ScaledUnit.RED_DIFFERENCE_SCALE
    specChromaScale
  rw [div_div]
  norm_num

/-- In analog4fsc.cpp the 16-bit scale and the float normalisation cancel:
the written Cb sample is `src / (2 * range)`, with the `(1-K)` and `k`
factors gone. -/
theorem scaled16_cb_combined (s range : ℚ) :
    s * Scaled16.cbScale range * Scaled16.cbNorm = s / (2 * range) := by
  unfold Scaled16.cbScale Scaled16.cbNorm Scaled16.C_SCALE Scaled16.ONE_MINUS_Kb
  rcases eq_or_ne range 0 with h | h
  · subst h
    simp
  · have hkB : kB ≠ 0 := kB_ne_zero
    field_simp
    ring

/-- In analog4fsc.cpp the written Cr sample is likewise `src / (2 * range)`. -/
theorem scaled16_cr_combined (s range : ℚ) :
    s * Scaled16.crScale range * Scaled16.crNorm = s / (2 * range) := by
  unfold Scaled16.crScale Scaled16.crNorm Scaled16.C_SCALE Scaled16.ONE_MINUS_Kr
  rcases eq_or_ne range 0 with h | h
  · subst h
    simp
  · have hkR : kR ≠ 0 := kR_ne_zero
    field_simp
    ring

/-- C1 (counterexample): in the analog4fsc.cpp revision of `convertToFloat`,
with black 0, white 1 and a source chroma sample of 1, the written Cb value
is `1/2`, not `srcU * (1 / ((2*(1-0.114)) * kB * range)) ≈ 1.1465` as the
claim's formula requires. -/
theorem scaled16_chroma_not_spec_scale :
    ((Scaled16.convertU sampleActiveParams sampleOnesFrame).getD 0 []).getD 0 0 ≠
      sampleOnesFrame.u 0 0 *
        specChromaScale 0.114 kB
          (sampleActiveParams.white16bIre - sampleActiveParams.black16bIre) := by
  rw [Scaled16.convertU,
    convertPlane_active _ _ _ _ _ 0 0 (by decide) (by decide) (by decide),
    scaled16_cb_combined]
  norm_num [sampleActiveParams, sampleOnesFrame, yRange, yOffset,
    specChromaScale, kB]

/-- C1 (amended): inside the active region, the part_002 revision writes the
chroma samples exactly as `src * (1 / ((2*(1-K)) * k * range))` with
`K = 0.114, k = kB` for Cb and `K = 0.299, k = kR` for Cr; the
analog4fsc.cpp revision's scale and normalisation factors cancel to
`src / (2 * range)` for both chroma planes. -/
theorem convertToFloat_chroma_scale (p : ConvertParams)
    (uvSource : ComponentFrame) (y x : ℕ)
    (hy : y < p.height) (hya : y < p.activeHeight) (hx : x < p.activeWidth) :
    ((ScaledUnit.convertU p uvSource).getD y []).getD x 0 =
      uvSource.u (p.uvFirstActiveLine + y) (p.uvActiveVideoStart + x) *
        specChromaScale 0.114 kB (yRange p) ∧
    ((ScaledUnit.convertV p uvSource).getD y []).getD x 0 =
      uvSource.v (p.uvFirstActiveLine + y) (p.uvActiveVideoStart + x) *
        specChromaScale 0.299 kR (yRange p) ∧
    ((Scaled16.convertU p uvSource).getD y []).getD x 0 =
      uvSource.u (p.uvFirstActiveLine + y) (p.uvActiveVideoStart + x) /
        (2 * yRange p) ∧
    ((Scaled16.convertV p uvSource).getD y []).getD x 0 =
      uvSource.v (p.uvFirstActiveLine + y) (p.uvActiveVideoStart + x) /
        (2 * yRange p) := by
  rw [ScaledUnit.convertU, ScaledUnit.convertV, Scaled16.convertU,
    Scaled16.convertV,
    convertPlane_active _ _ _ _ _ y x hy hya hx,
    convertPlane_active _ _ _ _ _ y x hy hya hx,
    convertPlane_active _ _ _ _ _ y x hy hya hx,
    convertPlane_active _ _ _ _ _ y x hy hya hx]
  exact ⟨by rw [scaledUnit_cbScale_eq_spec], by rw [scaledUnit_crScale_eq_spec],
    scaled16_cb_combined _ _, scaled16_cr_combined _ _⟩

/-- C1 (amended, witness): a concrete active-region sample of both
revisions, with black 0, white 1 and an all-ones source frame. -/
theorem convertToFloat_chroma_scale_witness :
    ((ScaledUnit.convertU sampleActiveParams sampleOnesFrame).getD 0 []).getD 0 0 =
      sampleOnesFrame.u (sampleActiveParams.uvFirstActiveLine + 0)
          (sampleActiveParams.uvActiveVideoStart + 0) *
        specChromaScale 0.114 kB (yRange sampleActiveParams) ∧
    ((Scaled16.convertU sampleActiveParams sampleOnesFrame).getD 0 []).getD 0 0 =
      sampleOnesFrame.u (sampleActiveParams.uvFirstActiveLine + 0)
          (sampleActiveParams.uvActiveVideoStart + 0) /
        (2 * yRange sampleActiveParams) := by
  have h := convertToFloat_chroma_scale sampleActiveParams sampleOnesFrame 0 0
    (by decide) (by decide) (by decide)
  exact ⟨h.1, h.2.2.1⟩

/-- C8: the migration writes `number_of_sequential_fields` as the length of
the JSON `fields` array, and the `numberOfSequentialFields` value parsed from
the `videoParameters` object is never bound: replacing it changes nothing in
the migration's output. -/
theorem numberOfSequentialFields_from_array_length (doc : JsonMetadata) :
    (∀ db, convertJsonToSqlite doc = some db →
      ∃ cap, db.capture = some cap ∧
        cap.number_of_sequential_fields =
          some ((doc.fields.getD []).length : Int)) ∧
    (∀ obj n, doc.videoParameters = some obj →
      convertJsonToSqlite (setNumSeqFields doc obj n) =
        convertJsonToSqlite doc) := by
  constructor
  · intro db h
    simp only [convertJsonToSqlite] at h
    split at h
    · injection h with h
      subst h
      refine ⟨_, rfl, ?_⟩
      simp [captureRowOfParams]
    · exact absurd h (by simp)
  · intro obj n h
    obtain ⟨vpo, flds⟩ := doc
    have h2 : vpo = some obj := h
    subst h2
    rfl

/-- C8 (witness): with a one-element `fields` array and a `videoParameters`
object carrying `numberOfSequentialFields = 99`, the column holds 1, and
replacing the JSON value by 5 gives the identical store. -/
theorem numberOfSequentialFields_from_array_length_witness :
    (∃ cap, sampleConvertedDb.capture = some cap ∧
      cap.number_of_sequential_fields =
        some ((sampleJsonWithVp.fields.getD []).length : Int)) ∧
    convertJsonToSqlite (setNumSeqFields sampleJsonWithVp sampleJsonVpObj (some 5)) =
      convertJsonToSqlite sampleJsonWithVp :=
  ⟨(numberOfSequentialFields_from_array_length sampleJsonWithVp).1
      sampleConvertedDb rfl,
   (numberOfSequentialFields_from_array_length sampleJsonWithVp).2
      sampleJsonVpObj (some 5) rfl⟩

/-- The video parameters read back from any store are marked valid:
`readVideoParameters` assigns `isValid = true` with no further check. -/
theorem readVideoParameters_isValid (db : Database) (vp : VideoParameters)
    (h : readVideoParameters db = some vp) : vp.isValid = true := by
  unfold readVideoParameters at h
  cases hc : db.capture with
  | none => rw [hc] at h; exact absurd h (by simp)
  | some cap =>
      rw [hc] at h
      injection h with h
      subst h
      rfl

/-- C9: whenever the structured-store read succeeds, the returned
VideoParameters is unconditionally marked valid, so the
`"Invalid video parameters in metadata"` branch of `TbcReader::open` is
unreachable after a successful store read. -/
theorem storeRead_videoParameters_always_valid (db : Database) :
    (∀ vp, readVideoParameters db = some vp → vp.isValid = true) ∧
    (∀ r, sqlite3Read db = some r → r.1.isValid = true) := by
  refine ⟨fun vp h => readVideoParameters_isValid db vp h, fun r h => ?_⟩
  cases hv : readVideoParameters db with
  | none => simp [sqlite3Read, hv] at h
  | some vp =>
      cases hf : readFields db with
      | none => simp [sqlite3Read, hv, hf] at h
      | some fs =>
          simp only [sqlite3Read, hv, hf, Option.bind_eq_bind,
            Option.some_bind, Option.pure_def, Option.some_inj] at h
          rw [← h]
          exact readVideoParameters_isValid db vp hv

theorem castRangeNodup (n : ℕ) :
    ((List.range n).map (fun i => Int.ofNat i)).Nodup :=
  List.Nodup.map (fun _ _ h => Int.ofNat.inj h) (List.nodup_range n)

theorem castRangePairwise (n : ℕ) :
    ((List.range n).map (fun i => Int.ofNat i)).Pairwise (fun a b => a ≤ b) :=
  List.pairwise_map.mpr
    ((List.pairwise_lt_range n).imp
      (fun h => Int.ofNat_le.mpr (Nat.le_of_lt h)))

/-- Reading back rows whose `field_id`s are `ns` yields sequence numbers
`ns` shifted by one. -/
theorem map_seqNo_of_map_field_id (rows : List FieldRow) (ns : List Int)
    (h : rows.map (fun r => r.field_id) = ns) :
    (rows.map readFieldRow).map (fun f => f.seqNo) = ns.map (fun z => z + 1) := by
  subst h
  rw [List.map_map, List.map_map]
  rfl

/-- Splitting `Sqlite3MetadataReader::read` into its two phases. -/
theorem sqlite3Read_eq (db : Database) (vp : VideoParameters) (fs : List Field)
    (h1 : readVideoParameters db = some vp) (h2 : readFields db = some fs) :
    sqlite3Read db = some (vp, fs) := by
  simp [sqlite3Read, h1, h2]

/-- C4 (counterexample): a one-element `fields` array whose element carries
`seqNo = 1` (one-indexed, as ld-decode JSON numbers its fields) migrates
successfully, but reading the store back yields the single sequence number 2,
not the contiguous `1..N` = `[1]` the claim states: `seqNo` is stored
directly as the zero-indexed `field_id` and read back as `field_id + 1`. -/
theorem jsonStore_roundTrip_counterexample :
    ((convertJsonToSqlite sampleJsonSeq1).bind sqlite3Read).map
        (fun r => r.2.map (fun f => f.seqNo)) = some [2] ∧
      some [2] ≠ some ([1] : List Int) := by
  constructor
  · rfl
  · decide

/-- C4 (amended): for every JSON sidecar whose `fields` array has `N ≥ 1`
elements carrying zero-indexed `seqNo` values `0..N-1` in order (the
vhs-decode convention the converter assumes) and whose parsed `system` is one
of NTSC/PAL/PAL_M, migrating and reading back yields exactly `N` FieldRecords
with contiguous sequence numbers `1..N`, and VideoParameters fields (system,
field width/height, active-video start/end, white/black calibration levels)
equal to the JSON-sourced values. -/
theorem jsonStore_roundTrip (doc : JsonMetadata) (jfs : List JsonField)
    (hf : doc.fields = some jfs)
    (hn : 1 ≤ jfs.length)
    (hseq : (jfs.map parseField).map (fun f => f.seqNo) =
      (List.range jfs.length).map (fun i => Int.ofNat i))
    (hsys : (parsedVideoParams doc).system = "NTSC" ∨
      (parsedVideoParams doc).system = "PAL" ∨
      (parsedVideoParams doc).system = "PAL_M") :
    ∃ db vp fs, convertJsonToSqlite doc = some db ∧
      sqlite3Read db = some (vp, fs) ∧
      fs.length = jfs.length ∧
      fs.map (fun f => f.seqNo) =
        (List.range jfs.length).map (fun i => Int.ofNat i + 1) ∧
      vp.system = parseSystemString (parsedVideoParams doc).system ∧
      vp.fieldWidth = (parsedVideoParams doc).fieldWidth ∧
      vp.fieldHeight = (parsedVideoParams doc).fieldHeight ∧
      vp.activeVideoStart = (parsedVideoParams doc).activeVideoStart ∧
      vp.activeVideoEnd = (parsedVideoParams doc).activeVideoEnd ∧
      vp.white16bIre = (parsedVideoParams doc).white16bIre ∧
      vp.black16bIre = (parsedVideoParams doc).black16bIre := by
  have hflds : doc.fields.getD [] = jfs := by rw [hf]; rfl
  have hids : (((doc.fields.getD []).map parseField).map fieldRowOfData).map
      (fun r => r.field_id) =
      (List.range jfs.length).map (fun i => Int.ofNat i) := by
    rw [hflds, List.map_map]
    exact hseq
  have hnodup : ((((doc.fields.getD []).map parseField).map fieldRowOfData).map
      (fun r => r.field_id)).Nodup := by
    rw [hids]
    exact castRangeNodup jfs.length
  have hcap : captureInsertOk (captureRowOfParams (parsedVideoParams doc)
      (((doc.fields.getD []).map parseField).length : Int)) = true := by
    rcases hsys with h | h | h <;> simp [captureInsertOk, captureRowOfParams, h]
  have hconv : convertJsonToSqlite doc =
      some { capture := some (captureRowOfParams (parsedVideoParams doc)
               (((doc.fields.getD []).map parseField).length : Int)),
             fieldRows := ((doc.fields.getD []).map parseField).map fieldRowOfData } := by
    simp only [convertJsonToSqlite]
    split
    · rfl
    case isFalse hcond =>
      exact absurd (by rw [Bool.and_eq_true]; exact ⟨hcap, decide_eq_true hnodup⟩) hcond
  have hpair : ((((doc.fields.getD []).map parseField).map fieldRowOfData).map
      (fun r => r.field_id)).Pairwise (fun a b => a ≤ b) := by
    rw [hids]
    exact castRangePairwise jfs.length
  have hsorted : orderByFieldId (((doc.fields.getD []).map parseField).map fieldRowOfData) =
      ((doc.fields.getD []).map parseField).map fieldRowOfData := by
    unfold orderByFieldId
    exact List.Sorted.insertionSort_eq (List.pairwise_map.mp hpair)
  have hlenrows : ((((doc.fields.getD []).map parseField).map fieldRowOfData)).length =
      jfs.length := by
    simp [hflds]
  have hreadf : readFields
      { capture := some (captureRowOfParams (parsedVideoParams doc)
          (((doc.fields.getD []).map parseField).length : Int)),
        fieldRows := ((doc.fields.getD []).map parseField).map fieldRowOfData } =
      some ((((doc.fields.getD []).map parseField).map fieldRowOfData).map readFieldRow) := by
    simp only [readFields]
    rw [hsorted, if_neg]
    simp only [List.length_map]
    simp only [List.length_map] at hlenrows
    omega
  refine ⟨_, _, _, hconv, sqlite3Read_eq _ _ _ rfl hreadf, ?_, ?_, rfl, rfl, rfl, rfl, rfl, rfl, rfl⟩
  · simp [hflds]
  · rw [map_seqNo_of_map_field_id _ _ hids, List.map_map]
    rfl

/-- C4 (amended, witness): the one-element sidecar with zero-indexed
`seqNo = 0` round-trips to a single FieldRecord with sequence number 1. -/
theorem jsonStore_roundTrip_witness :
    ∃ db vp fs, convertJsonToSqlite sampleJsonSeq0 = some db ∧
      sqlite3Read db = some (vp, fs) ∧
      fs.length = [jsonFieldWithSeqNo 0].length ∧
      fs.map (fun f => f.seqNo) =
        (List.range [jsonFieldWithSeqNo 0].length).map (fun i => Int.ofNat i + 1) ∧
      vp.system = parseSystemString (parsedVideoParams sampleJsonSeq0).system ∧
      vp.fieldWidth = (parsedVideoParams sampleJsonSeq0).fieldWidth ∧
      vp.fieldHeight = (parsedVideoParams sampleJsonSeq0).fieldHeight ∧
      vp.activeVideoStart = (parsedVideoParams sampleJsonSeq0).activeVideoStart ∧
      vp.activeVideoEnd = (parsedVideoParams sampleJsonSeq0).activeVideoEnd ∧
      vp.white16bIre = (parsedVideoParams sampleJsonSeq0).white16bIre ∧
      vp.black16bIre = (parsedVideoParams sampleJsonSeq0).black16bIre :=
  jsonStore_roundTrip sampleJsonSeq0 [jsonFieldWithSeqNo 0] rfl (by decide)
    (by decide) (Or.inl (by decide))

/-- C9 (witness): a concrete store read succeeds and its video parameters
are marked valid. -/
theorem storeRead_videoParameters_always_valid_witness :
    sampleReadVideoParameters.isValid = true ∧
      ((sampleReadVideoParameters, [readFieldRow sampleFieldRow]) :
          VideoParameters × List Field).1.isValid = true :=
  ⟨(storeRead_videoParameters_always_valid sampleDatabase).1
      sampleReadVideoParameters rfl,
   (storeRead_videoParameters_always_valid sampleDatabase).2
      (sampleReadVideoParameters, [readFieldRow sampleFieldRow]) rfl⟩

end VsAnalog
